import Mathlib

/-!
# Policy reconciliation (`okta/policy.go`)

A shallow embedding of the policy lifecycle functions of `okta/policy.go`:
`createPolicy`, `updatePolicy`, `deletePolicy`, `policyActivate`, `getPolicy`,
`syncPolicyFromUpstream`, `findSystemPolicyByType` and
`findPolicyByNameAndType`.

Stateful code is modelled by explicit state passing.  The state is the
Terraform resource record `d` together with the log of the calls issued to the
remote client so far.  The remote client is an arbitrary deterministic
environment: each of its answers is a function of the calls issued before and
of the arguments of the call.  `logger(m).Info` calls have no effect on either
component and are left out.
-/

namespace Okta

/-! ## Data model -/

/-- Go `error` values.  `upstream` is an error handed back by the remote
client; `wrapped ctx e` is `fmt.Errorf("<ctx>: %v", e)`; `message` is a
`fmt.Errorf` without a cause; `priorityConflict` is the error of
`validatePriority`. -/
inductive Error where
  | upstream (msg : String)
  | wrapped (ctx : String) (cause : Error)
  | message (text : String)
  | priorityConflict (requested assigned : Int)
  deriving DecidableEq, Repr

/-- The `sdk.GroupCondition` record: `Include` is a Go slice, `none` is the nil slice. -/
structure GroupCondition where
  Include : Option (List String)
  deriving DecidableEq, Repr

/-- The `sdk.PolicyPeopleCondition` record: `Groups` is a pointer, `none` is nil. -/
structure PolicyPeopleCondition where
  Groups : Option GroupCondition
  deriving DecidableEq, Repr

/-- The `Conditions` record of an `sdk.SdkPolicy`: `People` is a pointer. -/
structure PolicyRuleConditions where
  People : Option PolicyPeopleCondition
  deriving DecidableEq, Repr

/-- The fields of `sdk.SdkPolicy` read by `policy.go` (`Type_` is the Go field `Type`). -/
structure SdkPolicy where
  Id : String
  Name : String
  Description : String
  Status : String
  Type_ : String
  PriorityPtr : Option Int
  Conditions : Option PolicyRuleConditions
  deriving DecidableEq, Repr

/-- The fields of `sdk.Policy` read by the lookup functions.  `System` is a
`*bool`; `none` is the nil pointer. -/
structure Policy where
  Id : String
  Name : String
  Type_ : String
  System : Option Bool
  deriving DecidableEq, Repr

/-- The part of `schema.ResourceData` used by `policy.go`: the identifier
(`d.Id()` / `d.SetId`) and the attributes of `basePolicySchema`. -/
structure ResourceData where
  id : String
  name : String
  description : String
  status : String
  priority : Int
  groups_included : Finset String
  deriving DecidableEq

/-- Go `d.SetId(id)`. -/
def ResourceData.SetId (d : ResourceData) (id : String) : ResourceData :=
  { d with id := id }

/-- The `statusActive` constant. -/
def statusActive : String := "ACTIVE"

/-- The `statusInactive` constant. -/
def statusInactive : String := "INACTIVE"

/-- The HTTP status code of a not-found answer (`http.StatusNotFound`). -/
def statusNotFound : Nat := 404

/-- The `sdk.Response` fields that matter here: the HTTP status code. -/
structure Response where
  StatusCode : Nat
  deriving DecidableEq, Repr

/-- What `GetPolicy` hands back: `(policy, resp, err)`, each possibly nil. -/
structure GetReply where
  policy : Option SdkPolicy
  resp : Option Response
  err : Option Error
  deriving DecidableEq, Repr

/-- A call issued to the remote client. -/
inductive Call where
  | CreatePolicy (template : SdkPolicy)
  | UpdatePolicy (id : String) (template : SdkPolicy)
  | DeletePolicy (id : String)
  | ActivatePolicy (id : String)
  | DeactivatePolicy (id : String)
  | GetPolicy (id : String)
  | ListPolicies (policyType : String)
  | Next
  deriving DecidableEq, Repr

/-- What a policy listing of the remote service answers: the result of the
first `ListPolicies` call and, in order, the results of the `resp.Next` calls
that can follow it.  `resp.HasNextPage()` holds while a further result is left. -/
structure Listing where
  first : Except Error (List Policy)
  rest : List (Except Error (List Policy))

/-- How a function that may dereference a nil pointer ends: with a value, with
a Go `error`, or with a run-time panic. -/
inductive Outcome (α : Type) where
  | ok (a : α)
  | error (e : Error)
  | panic
  deriving DecidableEq, Repr

/-- The collaborators reached through `m` and the package helper
`ensureNotDefault`, whose body is not part of `policy.go` and is therefore
left arbitrary.  Every client answer may depend on the calls issued before (the
first argument).  A write answers with an error or with a policy record, a
status change or delete with an error or nil, a read with the triple of
`GetReply`, a listing with its page results. -/
structure Env where
  ensureNotDefault : ResourceData → String → Option Error
  CreatePolicy : List Call → SdkPolicy → Except Error SdkPolicy
  UpdatePolicy : List Call → String → SdkPolicy → Except Error SdkPolicy
  DeletePolicy : List Call → String → Option Error
  ActivatePolicy : List Call → String → Option Error
  DeactivatePolicy : List Call → String → Option Error
  GetPolicy : List Call → String → GetReply
  ListPolicies : List Call → String → Listing

/-- The state threaded through an operation: the resource record and the log
of remote calls, oldest first. -/
structure State where
  d : ResourceData
  log : List Call
  deriving DecidableEq

/-! ## Helpers that live outside `policy.go` -/

/-- Modelled from the spec: `validatePriority` is defined outside `policy.go`.
Spec 4.1: if the requested and the stored priority match, succeed silently; if
they differ, fail with a priority-conflict error carrying both values. -/
def validatePriority (requested assigned : Int) : Option Error :=
  if requested = assigned then none else some (Error.priorityConflict requested assigned)

/-- Modelled from the spec: `suppressErrorOn404` is defined outside `policy.go`.
Spec 4.2 and 7: a not-found response is not an error; any other failure
propagates. -/
def suppressErrorOn404 (resp : Option Response) (err : Option Error) : Option Error :=
  match resp with
  | some r => if r.StatusCode = statusNotFound then none else err
  | none => err

/-! ## Lifecycle operations -/

/-- Go `ensureNotDefaultPolicy(d)`. -/
def ensureNotDefaultPolicy (env : Env) (d : ResourceData) : Option Error :=
  env.ensureNotDefault d "Policy"

/-- Go `policyActivate(ctx, d, m)`: the two `if` statements in order. -/
def policyActivate (env : Env) (s : State) : Option Error × State :=
  let r1 : Option Error × State :=
    if s.d.status = statusActive then
      let s1 : State := { s with log := s.log ++ [Call.ActivatePolicy s.d.id] }
      match env.ActivatePolicy s.log s.d.id with
      | some err => (some (Error.wrapped "activation has failed" err), s1)
      | none => (none, s1)
    else (none, s)
  match r1 with
  | (some e, s1) => (some e, s1)
  | (none, s1) =>
    if s1.d.status = statusInactive then
      let s2 : State := { s1 with log := s1.log ++ [Call.DeactivatePolicy s1.d.id] }
      match env.DeactivatePolicy s1.log s1.d.id with
      | some err => (some (Error.wrapped "deactivation has failed" err), s2)
      | none => (none, s2)
    else (none, s1)

/-- The priority check shared by `createPolicy` and `updatePolicy`:
`if template.PriorityPtr != nil && policy.PriorityPtr != nil { err = validatePriority(..) }`
starting from `err == nil`. -/
def checkPriority (template policy : SdkPolicy) : Option Error :=
  match template.PriorityPtr, policy.PriorityPtr with
  | some p, some q => validatePriority p q
  | _, _ => none

/-- Go `createPolicy(ctx, d, m, template)`. -/
def createPolicy (env : Env) (template : SdkPolicy) (s : State) : Option Error × State :=
  match ensureNotDefaultPolicy env s.d with
  | some err => (some err, s)
  | none =>
    let s1 : State := { s with log := s.log ++ [Call.CreatePolicy template] }
    match env.CreatePolicy s.log template with
    | Except.error err => (some err, s1)
    | Except.ok policy =>
      let s2 : State := { s1 with d := s1.d.SetId policy.Id }
      match checkPriority template policy with
      | some err => (some err, s2)
      | none => policyActivate env s2

/-- Go `updatePolicy(ctx, d, m, template)`. -/
def updatePolicy (env : Env) (template : SdkPolicy) (s : State) : Option Error × State :=
  match ensureNotDefaultPolicy env s.d with
  | some err => (some err, s)
  | none =>
    let s1 : State := { s with log := s.log ++ [Call.UpdatePolicy s.d.id template] }
    match env.UpdatePolicy s.log s.d.id template with
    | Except.error err => (some err, s1)
    | Except.ok policy =>
      match checkPriority template policy with
      | some err => (some err, s1)
      | none => policyActivate env s1

/-- Go `deletePolicy(ctx, d, m)`. -/
def deletePolicy (env : Env) (s : State) : Option Error × State :=
  match ensureNotDefaultPolicy env s.d with
  | some err => (some err, s)
  | none =>
    let s1 : State := { s with log := s.log ++ [Call.DeletePolicy s.d.id] }
    match env.DeletePolicy s.log s.d.id with
    | some err => (some err, s1)
    | none => (none, { s1 with d := s1.d.SetId "" })

/-- Go `getPolicy(ctx, d, m)`: returns `(policy, err)`. -/
def getPolicy (env : Env) (s : State) : (Option SdkPolicy × Option Error) × State :=
  let s1 : State := { s with log := s.log ++ [Call.GetPolicy s.d.id] }
  let reply := env.GetPolicy s.log s.d.id
  match suppressErrorOn404 reply.resp reply.err with
  | some err => ((none, some err), s1)
  | none =>
    match reply.policy with
    | none => ((none, none), { s1 with d := s1.d.SetId "" })
    | some policy => ((some policy, reply.err), s1)

/-! ## State synchronizer -/

/-- Modelled from the spec: `convertStringSliceToSet` is defined outside
`policy.go`.  Spec 4.3 and 8: the included-groups value is a set of group
identifiers, unordered and without duplicates. -/
def convertStringSliceToSet (l : List String) : Finset String :=
  l.toFinset

/-- Modelled from the spec: `setNonPrimitives` is defined outside `policy.go`;
here it is applied to the single key `groups_included`.  Spec 4.3: overwrite
the included-groups set. -/
def setNonPrimitives (d : ResourceData) (groups : Finset String) : Option Error × ResourceData :=
  (none, { d with groups_included := groups })

/-- Go `syncPolicyFromUpstream(d, policy)`: returns the error and the record. -/
def syncPolicyFromUpstream (d : ResourceData) (policy : SdkPolicy) : Option Error × ResourceData :=
  let d1 : ResourceData := { d with name := policy.Name }
  let d2 : ResourceData := { d1 with description := policy.Description }
  let d3 : ResourceData := { d2 with status := policy.Status }
  let d4 : ResourceData :=
    match policy.PriorityPtr with
    | some p => { d3 with priority := p }
    | none => d3
  match policy.Conditions with
  | none => (none, d4)
  | some conditions =>
    match conditions.People with
    | none => (none, d4)
    | some people =>
      match people.Groups with
      | none => (none, d4)
      | some groups =>
        match groups.Include with
        | none => (none, d4)
        | some ids => setNonPrimitives d4 (convertStringSliceToSet ids)

/-- For the statement of the synchronizer property: the group identifiers
carried by the group-inclusion condition of a remote record; there are none
when the condition is absent at any level. -/
def includedGroupIds (policy : SdkPolicy) : List String :=
  ((((policy.Conditions.bind (fun c => c.People)).bind (fun p => p.Groups)).bind
    (fun g => g.Include)).getD [])

/-- For the statement of the synchronizer property: the `Include` slice of a
remote record when every pointer on the way to it is non-nil, and `none`
otherwise (also when the slice itself is nil). -/
def includeSlice (policy : SdkPolicy) : Option (List String) :=
  ((policy.Conditions.bind (fun c => c.People)).bind (fun p => p.Groups)).bind
    (fun g => g.Include)

/-! ## Lookups -/

/-- The loop `for _, p := range policies` of `findSystemPolicyByType`:
dereferences `policy.System` and returns the first policy where it is true. -/
def firstSystem : List Policy → Outcome (Option Policy)
  | [] => Outcome.ok none
  | policy :: ps =>
    match policy.System with
    | none => Outcome.panic
    | some true => Outcome.ok (some policy)
    | some false => firstSystem ps

/-- Go `findSystemPolicyByType(ctx, m, _type)`, with the log of remote calls. -/
def findSystemPolicyByType (env : Env) (_type : String) (log : List Call) :
    Outcome Policy × List Call :=
  let log1 := log ++ [Call.ListPolicies _type]
  match (env.ListPolicies log _type).first with
  | Except.error err => (Outcome.error err, log1)
  | Except.ok policies =>
    match firstSystem policies with
    | Outcome.panic => (Outcome.panic, log1)
    | Outcome.error e => (Outcome.error e, log1)
    | Outcome.ok (some policy) => (Outcome.ok policy, log1)
    | Outcome.ok none =>
      (Outcome.error (Error.message ("default system \"" ++ _type ++ "\" policy not found")), log1)

/-- The inner loop `for _, _policy := range policies` of
`findPolicyByNameAndType`: the first policy of the page named `name`. -/
def firstNamed (name : String) : List Policy → Option Policy
  | [] => none
  | policy :: ps => if policy.Name = name then some policy else firstNamed name ps

/-- The outer `for` loop of `findPolicyByNameAndType`, started on the page
`policies` with the page results `rest` still to be fetched by `resp.Next`. -/
def findPolicyLoop (name policyType : String) :
    List Policy → List (Except Error (List Policy)) → List Call → Except Error Policy × List Call
  | policies, rest, log =>
    match firstNamed name policies with
    | some policy => (Except.ok policy, log)
    | none =>
      match rest with
      | [] =>
        (Except.error (Error.message ("no policies retrieved for policy type '" ++ policyType
          ++ "' and name '" ++ name ++ "'")), log)
      | Except.error err :: _ =>
        (Except.error (Error.wrapped "failed to list policies" err), log ++ [Call.Next])
      | Except.ok next :: rest1 => findPolicyLoop name policyType next rest1 (log ++ [Call.Next])

/-- Go `findPolicyByNameAndType(ctx, m, name, policyType)`, with the log of remote calls. -/
def findPolicyByNameAndType (env : Env) (name policyType : String) (log : List Call) :
    Except Error Policy × List Call :=
  let log1 := log ++ [Call.ListPolicies policyType]
  let listing := env.ListPolicies log policyType
  match listing.first with
  | Except.error err => (Except.error (Error.wrapped "failed to list policies" err), log1)
  | Except.ok policies => findPolicyLoop name policyType policies listing.rest log1

/-! ## Sample inputs -/

/-- A sample guard: a record named `"Default " ++ t` is immutable. -/
def sampleGuard (d : ResourceData) (t : String) : Option Error :=
  if d.name = "Default " ++ t then some (Error.message ("Default " ++ t ++ " is immutable"))
  else none

/-- A sample remote service: writes succeed and store the priority `assigned`,
status changes answer `toggle`, deletes answer `removal`, reads answer
`reply`, listings answer `listing`. -/
def sampleEnv (assigned : Option Int) (toggle removal : Option Error) (reply : GetReply)
    (listing : Listing) : Env where
  ensureNotDefault := sampleGuard
  CreatePolicy := fun _ template => Except.ok { template with Id := "p-1", PriorityPtr := assigned }
  UpdatePolicy := fun _ id template => Except.ok { template with Id := id, PriorityPtr := assigned }
  DeletePolicy := fun _ _ => removal
  ActivatePolicy := fun _ _ => toggle
  DeactivatePolicy := fun _ _ => toggle
  GetPolicy := fun _ _ => reply
  ListPolicies := fun _ _ => listing

/-- The not-found answer of a read. -/
def notFoundReply : GetReply :=
  { policy := none, resp := some { StatusCode := 404 }, err := some (Error.upstream "Not found") }

/-- An empty listing. -/
def emptyListing : Listing :=
  { first := Except.ok [], rest := [] }

/-- A service that stores priority 2 and answers every call with success. -/
def env2 : Env := sampleEnv (some 2) none none notFoundReply emptyListing

/-- A service that stores priority 5 and answers every call with success. -/
def env5 : Env := sampleEnv (some 5) none none notFoundReply emptyListing

/-- The declared policy of the scenario of spec section 8, as a template. -/
def mfaStrictTemplate : SdkPolicy :=
  { Id := "", Name := "MFA-Strict", Description := "", Status := "ACTIVE", Type_ := "MFA_ENROLL",
    PriorityPtr := some 2,
    Conditions := some { People := some { Groups := some { Include := some ["g1", "g2"] } } } }

/-- The declared policy of the scenario of spec section 8, as a resource record
with identifier `id`. -/
def mfaStrict (id : String) : ResourceData :=
  { id := id, name := "MFA-Strict", description := "", status := "ACTIVE", priority := 2,
    groups_included := {"g1", "g2"} }

/-- A resource record holding the built-in policy. -/
def defaultRecord : ResourceData :=
  { id := "p-0", name := "Default Policy", description := "", status := "ACTIVE", priority := 1,
    groups_included := ∅ }

/-- A remote record whose group-inclusion condition is present and holds no
group identifier (`"include": []`). -/
def emptyIncludeRecord : SdkPolicy :=
  { Id := "p-1", Name := "MFA-Strict", Description := "", Status := "ACTIVE",
    Type_ := "MFA_ENROLL", PriorityPtr := some 2,
    Conditions := some { People := some { Groups := some { Include := some [] } } } }

/-- A remote record without any condition. -/
def bareRecord : SdkPolicy :=
  { Id := "p-1", Name := "MFA-Strict", Description := "", Status := "ACTIVE",
    Type_ := "MFA_ENROLL", PriorityPtr := some 2, Conditions := none }

/-- A custom password policy. -/
def customPolicy : Policy :=
  { Id := "p-7", Name := "Contractors", Type_ := "PASSWORD", System := some false }

/-- The built-in password policy. -/
def systemPolicy : Policy :=
  { Id := "p-0", Name := "Default Policy", Type_ := "PASSWORD", System := some true }

/-- A listing of two pages with the built-in policy on the second page. -/
def twoPageListing : Listing :=
  { first := Except.ok [customPolicy], rest := [Except.ok [systemPolicy]] }

/-- A service whose policy listing is `twoPageListing`. -/
def envPaged : Env := sampleEnv none none none notFoundReply twoPageListing

/-- A service whose reads answer with the record `bareRecord`. -/
def envFound : Env :=
  sampleEnv none none none { policy := some bareRecord, resp := some { StatusCode := 200 }, err := none }
    emptyListing

/-! ## Theorems -/

/-- C1: when the not-default guard returns an error, `createPolicy`,
`updatePolicy` and `deletePolicy` each return that error and leave the whole
state as it was: the log of remote calls gets no entry and the resource
identifier is unchanged. -/
theorem default_guard_blocks (env : Env) (template : SdkPolicy) (s : State) (e : Error)
    (h : ensureNotDefaultPolicy env s.d = some e) :
    (createPolicy env template s = (some e, s) ∧
      updatePolicy env template s = (some e, s) ∧
      deletePolicy env s = (some e, s)) ∧
    ((createPolicy env template s).2.log = s.log ∧
      (updatePolicy env template s).2.log = s.log ∧
      (deletePolicy env s).2.log = s.log) ∧
    ((createPolicy env template s).2.d.id = s.d.id ∧
      (updatePolicy env template s).2.d.id = s.d.id ∧
      (deletePolicy env s).2.d.id = s.d.id) := by
  have hc : createPolicy env template s = (some e, s) := by simp only [createPolicy, h]
  have hu : updatePolicy env template s = (some e, s) := by simp only [updatePolicy, h]
  have hd : deletePolicy env s = (some e, s) := by simp only [deletePolicy, h]
  rw [hc, hu, hd]
  exact ⟨⟨rfl, rfl, rfl⟩, ⟨rfl, rfl, rfl⟩, ⟨rfl, rfl, rfl⟩⟩

/-- Witness of C1 on the built-in policy record. -/
theorem default_guard_blocks_witness :
    ensureNotDefaultPolicy env2 (State.mk defaultRecord []).d
        = some (Error.message "Default Policy is immutable") ∧
    ((createPolicy env2 mfaStrictTemplate ⟨defaultRecord, []⟩
          = (some (Error.message "Default Policy is immutable"), ⟨defaultRecord, []⟩) ∧
      updatePolicy env2 mfaStrictTemplate ⟨defaultRecord, []⟩
          = (some (Error.message "Default Policy is immutable"), ⟨defaultRecord, []⟩) ∧
      deletePolicy env2 ⟨defaultRecord, []⟩
          = (some (Error.message "Default Policy is immutable"), ⟨defaultRecord, []⟩)) ∧
    ((createPolicy env2 mfaStrictTemplate ⟨defaultRecord, []⟩).2.log = [] ∧
      (updatePolicy env2 mfaStrictTemplate ⟨defaultRecord, []⟩).2.log = [] ∧
      (deletePolicy env2 ⟨defaultRecord, []⟩).2.log = []) ∧
    ((createPolicy env2 mfaStrictTemplate ⟨defaultRecord, []⟩).2.d.id = "p-0" ∧
      (updatePolicy env2 mfaStrictTemplate ⟨defaultRecord, []⟩).2.d.id = "p-0" ∧
      (deletePolicy env2 ⟨defaultRecord, []⟩).2.d.id = "p-0")) :=
  ⟨by decide,
    default_guard_blocks env2 mfaStrictTemplate ⟨defaultRecord, []⟩
      (Error.message "Default Policy is immutable") (by decide)⟩

/-- After a successful remote create, `createPolicy` records the identifier and
then either returns the error of the priority check or runs `policyActivate`. -/
theorem createPolicy_of_created (env : Env) (template policy : SdkPolicy) (s : State)
    (hg : ensureNotDefaultPolicy env s.d = none)
    (hc : env.CreatePolicy s.log template = Except.ok policy) :
    createPolicy env template s =
      match checkPriority template policy with
      | some err => (some err, ⟨s.d.SetId policy.Id, s.log ++ [Call.CreatePolicy template]⟩)
      | none => policyActivate env ⟨s.d.SetId policy.Id, s.log ++ [Call.CreatePolicy template]⟩ := by
  simp only [createPolicy, hg, hc]

/-- After a successful remote update, `updatePolicy` either returns the error of
the priority check or runs `policyActivate`. -/
theorem updatePolicy_of_updated (env : Env) (template policy : SdkPolicy) (s : State)
    (hg : ensureNotDefaultPolicy env s.d = none)
    (hu : env.UpdatePolicy s.log s.d.id template = Except.ok policy) :
    updatePolicy env template s =
      match checkPriority template policy with
      | some err => (some err, ⟨s.d, s.log ++ [Call.UpdatePolicy s.d.id template]⟩)
      | none => policyActivate env ⟨s.d, s.log ++ [Call.UpdatePolicy s.d.id template]⟩ := by
  simp only [updatePolicy, hg, hu]

/-- The priority check on differing priorities is the conflict error. -/
theorem checkPriority_of_ne (template policy : SdkPolicy) (p q : Int)
    (hp : template.PriorityPtr = some p) (hq : policy.PriorityPtr = some q) (hne : q ≠ p) :
    checkPriority template policy = some (Error.priorityConflict p q) := by
  have hpq : ¬ p = q := fun h => hne h.symm
  simp [checkPriority, hp, hq, validatePriority, hpq]

/-- C2: on a non-default resource, when the remote create (resp. update) call
succeeds with a policy whose priority `q` differs from the requested `p`, then
`createPolicy` (resp. `updatePolicy`) returns the error of
`validatePriority p q`, which is the priority conflict of `p` and `q`, and the
identifier afterwards is the returned policy's (resp. the one the resource had
before), hence non-empty whenever that identifier is. -/
theorem priority_conflict_keeps_identifier (env : Env) (template policy : SdkPolicy) (s : State)
    (p q : Int) (hg : ensureNotDefaultPolicy env s.d = none)
    (hp : template.PriorityPtr = some p) (hq : policy.PriorityPtr = some q) (hne : q ≠ p) :
    validatePriority p q = some (Error.priorityConflict p q) ∧
    (env.CreatePolicy s.log template = Except.ok policy →
      (createPolicy env template s).1 = validatePriority p q ∧
      (createPolicy env template s).2.d.id = policy.Id ∧
      (policy.Id ≠ "" → (createPolicy env template s).2.d.id ≠ "")) ∧
    (env.UpdatePolicy s.log s.d.id template = Except.ok policy →
      (updatePolicy env template s).1 = validatePriority p q ∧
      (updatePolicy env template s).2.d.id = s.d.id ∧
      (s.d.id ≠ "" → (updatePolicy env template s).2.d.id ≠ "")) := by
  have hpq : ¬ p = q := fun h => hne h.symm
  have hv : validatePriority p q = some (Error.priorityConflict p q) := by
    simp [validatePriority, hpq]
  have hk := checkPriority_of_ne template policy p q hp hq hne
  refine ⟨hv, ?_, ?_⟩
  · intro hc
    have h := createPolicy_of_created env template policy s hg hc
    rw [hk] at h
    rw [h, hv]
    exact ⟨rfl, rfl, fun hid => hid⟩
  · intro hu
    have h := updatePolicy_of_updated env template policy s hg hu
    rw [hk] at h
    rw [h, hv]
    exact ⟨rfl, rfl, fun hid => hid⟩

/-- Witness of C2: requested priority 2, stored priority 5; the create starts
unbound, the update starts bound to `p-1`. -/
theorem priority_conflict_keeps_identifier_witness :
    ((createPolicy env5 mfaStrictTemplate ⟨mfaStrict "", []⟩).1
        = some (Error.priorityConflict 2 5) ∧
      (createPolicy env5 mfaStrictTemplate ⟨mfaStrict "", []⟩).2.d.id = "p-1") ∧
    ((updatePolicy env5 mfaStrictTemplate ⟨mfaStrict "p-1", []⟩).1
        = some (Error.priorityConflict 2 5) ∧
      (updatePolicy env5 mfaStrictTemplate ⟨mfaStrict "p-1", []⟩).2.d.id = "p-1") := by
  obtain ⟨hv, hc, _⟩ := priority_conflict_keeps_identifier env5 mfaStrictTemplate
    { mfaStrictTemplate with Id := "p-1", PriorityPtr := some 5 } ⟨mfaStrict "", []⟩ 2 5
    (by decide) rfl rfl (by decide)
  obtain ⟨_, _, hu⟩ := priority_conflict_keeps_identifier env5 mfaStrictTemplate
    { mfaStrictTemplate with Id := "p-1", PriorityPtr := some 5 } ⟨mfaStrict "p-1", []⟩ 2 5
    (by decide) rfl rfl (by decide)
  have hc1 := hc rfl
  have hu1 := hu rfl
  rw [hv] at hc1 hu1
  exact ⟨⟨hc1.1, hc1.2.1⟩, ⟨hu1.1, hu1.2.1⟩⟩

/-- Result of `policyActivate` on a record whose status is `ACTIVE`. -/
theorem policyActivate_of_active (env : Env) (s : State) (h : s.d.status = statusActive) :
    policyActivate env s =
      ((env.ActivatePolicy s.log s.d.id).map (Error.wrapped "activation has failed"),
        ⟨s.d, s.log ++ [Call.ActivatePolicy s.d.id]⟩) := by
  have hne : ¬ statusActive = statusInactive := by decide
  cases hr : env.ActivatePolicy s.log s.d.id <;> simp [policyActivate, h, hr, hne]

/-- Result of `policyActivate` on a record whose status is `INACTIVE`. -/
theorem policyActivate_of_inactive (env : Env) (s : State) (h : s.d.status = statusInactive) :
    policyActivate env s =
      ((env.DeactivatePolicy s.log s.d.id).map (Error.wrapped "deactivation has failed"),
        ⟨s.d, s.log ++ [Call.DeactivatePolicy s.d.id]⟩) := by
  have hne : ¬ statusInactive = statusActive := by decide
  cases hr : env.DeactivatePolicy s.log s.d.id <;> simp [policyActivate, h, hr, hne]

/-- Result of `policyActivate` on a record whose status is neither value. -/
theorem policyActivate_of_other (env : Env) (s : State) (ha : s.d.status ≠ statusActive)
    (hi : s.d.status ≠ statusInactive) : policyActivate env s = (none, s) := by
  simp [policyActivate, ha, hi]

/-- C3: on a non-default resource, when the remote create call succeeds with a
policy whose priority equals the requested one, or when no priority was
requested, `createPolicy` is `policyActivate` run on the state whose identifier
is the returned policy's; with status `ACTIVE` and a succeeding activate call it
issues exactly one activate call, on the new identifier, and returns no error. -/
theorem create_then_activate (env : Env) (template policy : SdkPolicy) (s : State)
    (hg : ensureNotDefaultPolicy env s.d = none)
    (hc : env.CreatePolicy s.log template = Except.ok policy)
    (hp : template.PriorityPtr = none ∨ template.PriorityPtr = policy.PriorityPtr) :
    createPolicy env template s
      = policyActivate env ⟨s.d.SetId policy.Id, s.log ++ [Call.CreatePolicy template]⟩ ∧
    (s.d.status = statusActive →
      env.ActivatePolicy (s.log ++ [Call.CreatePolicy template]) policy.Id = none →
      createPolicy env template s
        = (none, ⟨s.d.SetId policy.Id,
            s.log ++ [Call.CreatePolicy template] ++ [Call.ActivatePolicy policy.Id]⟩)) := by
  have hk : checkPriority template policy = none := by
    rcases hp with h | h
    · simp [checkPriority, h]
    · cases hq : policy.PriorityPtr with
      | none => simp [checkPriority, hq]
      | some q => simp [checkPriority, h, hq, validatePriority]
  have h0 := createPolicy_of_created env template policy s hg hc
  rw [hk] at h0
  have h : createPolicy env template s
      = policyActivate env ⟨s.d.SetId policy.Id, s.log ++ [Call.CreatePolicy template]⟩ := h0
  refine ⟨h, ?_⟩
  intro hs ha
  have ha1 : env.ActivatePolicy (State.mk (s.d.SetId policy.Id)
      (s.log ++ [Call.CreatePolicy template])).log
      (State.mk (s.d.SetId policy.Id) (s.log ++ [Call.CreatePolicy template])).d.id = none := ha
  rw [h, policyActivate_of_active env
    ⟨s.d.SetId policy.Id, s.log ++ [Call.CreatePolicy template]⟩ hs, ha1]
  rfl

/-- Witness of C3: the scenario of spec section 8 with stored priority 2. -/
theorem create_then_activate_witness :
    createPolicy env2 mfaStrictTemplate ⟨mfaStrict "", []⟩
      = (none, ⟨mfaStrict "p-1",
          [Call.CreatePolicy mfaStrictTemplate, Call.ActivatePolicy "p-1"]⟩) :=
  (create_then_activate env2 mfaStrictTemplate
    { mfaStrictTemplate with Id := "p-1", PriorityPtr := some 2 } ⟨mfaStrict "", []⟩
    (by decide) rfl (Or.inr rfl)).2 (by decide) rfl

/-- Counterexample to C10 as stated: with declared status `ACTIVE`, requested
priority 2 and stored priority 5, the remote write succeeds, and afterwards the
log holds the write call alone: no activate call was attempted, neither by
`createPolicy` nor by `updatePolicy`. -/
theorem priority_conflict_activation_not_attempted :
    ((mfaStrict "").status = statusActive ∧
      env5.CreatePolicy [] mfaStrictTemplate
        = Except.ok { mfaStrictTemplate with Id := "p-1", PriorityPtr := some 5 } ∧
      (createPolicy env5 mfaStrictTemplate ⟨mfaStrict "", []⟩).2.log
        = [Call.CreatePolicy mfaStrictTemplate] ∧
      ¬ Call.ActivatePolicy "p-1" ∈ (createPolicy env5 mfaStrictTemplate ⟨mfaStrict "", []⟩).2.log) ∧
    ((mfaStrict "p-1").status = statusActive ∧
      env5.UpdatePolicy [] "p-1" mfaStrictTemplate
        = Except.ok { mfaStrictTemplate with Id := "p-1", PriorityPtr := some 5 } ∧
      (updatePolicy env5 mfaStrictTemplate ⟨mfaStrict "p-1", []⟩).2.log
        = [Call.UpdatePolicy "p-1" mfaStrictTemplate] ∧
      ¬ Call.ActivatePolicy "p-1"
          ∈ (updatePolicy env5 mfaStrictTemplate ⟨mfaStrict "p-1", []⟩).2.log) :=
  ⟨⟨by decide, rfl, by decide, by decide⟩, ⟨by decide, rfl, by decide, by decide⟩⟩

/-- C10, amended: on a non-default resource, when the remote write succeeds but
the stored priority `q` differs from the requested `p`, `createPolicy` and
`updatePolicy` return the priority conflict and stop: the log gains the write
call and nothing else, so no activate and no deactivate call is issued. -/
theorem priority_conflict_skips_activation (env : Env) (template policy : SdkPolicy) (s : State)
    (p q : Int) (hg : ensureNotDefaultPolicy env s.d = none)
    (hp : template.PriorityPtr = some p) (hq : policy.PriorityPtr = some q) (hne : q ≠ p) :
    (env.CreatePolicy s.log template = Except.ok policy →
      createPolicy env template s
        = (some (Error.priorityConflict p q),
            ⟨s.d.SetId policy.Id, s.log ++ [Call.CreatePolicy template]⟩)) ∧
    (env.UpdatePolicy s.log s.d.id template = Except.ok policy →
      updatePolicy env template s
        = (some (Error.priorityConflict p q),
            ⟨s.d, s.log ++ [Call.UpdatePolicy s.d.id template]⟩)) := by
  have hk := checkPriority_of_ne template policy p q hp hq hne
  constructor
  · intro hc
    have h := createPolicy_of_created env template policy s hg hc
    rw [hk] at h
    exact h
  · intro hu
    have h := updatePolicy_of_updated env template policy s hg hu
    rw [hk] at h
    exact h

/-- Witness of C10, amended: requested priority 2, stored priority 5. -/
theorem priority_conflict_skips_activation_witness :
    createPolicy env5 mfaStrictTemplate ⟨mfaStrict "", []⟩
      = (some (Error.priorityConflict 2 5),
          ⟨mfaStrict "p-1", [Call.CreatePolicy mfaStrictTemplate]⟩) :=
  (priority_conflict_skips_activation env5 mfaStrictTemplate
    { mfaStrictTemplate with Id := "p-1", PriorityPtr := some 5 } ⟨mfaStrict "", []⟩ 2 5
    (by decide) rfl rfl (by decide)).1 rfl

/-- C5: `deletePolicy` on a non-default resource appends exactly one delete
call, for the current identifier, to the log; if the call succeeds the result
is no error and the identifier is empty afterwards; if it fails the result is
that error and the resource record, identifier included, is unchanged. -/
theorem deletePolicy_non_default (env : Env) (s : State)
    (hg : ensureNotDefaultPolicy env s.d = none) :
    (deletePolicy env s).2.log = s.log ++ [Call.DeletePolicy s.d.id] ∧
    (env.DeletePolicy s.log s.d.id = none →
      (deletePolicy env s).1 = none ∧ (deletePolicy env s).2.d.id = "") ∧
    (∀ e, env.DeletePolicy s.log s.d.id = some e →
      (deletePolicy env s).1 = some e ∧ (deletePolicy env s).2.d = s.d ∧
      (deletePolicy env s).2.d.id = s.d.id) := by
  cases hr : env.DeletePolicy s.log s.d.id with
  | none => simp [deletePolicy, hg, hr, ResourceData.SetId]
  | some e0 => simp [deletePolicy, hg, hr]

/-- Witness of C5: a succeeding delete of the record bound to `p-1`. -/
theorem deletePolicy_non_default_witness :
    (deletePolicy env2 ⟨mfaStrict "p-1", []⟩).2.log = [Call.DeletePolicy "p-1"] ∧
    (deletePolicy env2 ⟨mfaStrict "p-1", []⟩).1 = none ∧
    (deletePolicy env2 ⟨mfaStrict "p-1", []⟩).2.d.id = "" :=
  have h := deletePolicy_non_default env2 ⟨mfaStrict "p-1", []⟩ (by decide)
  ⟨h.1, h.2.1 rfl⟩

/-- C6: `policyActivate` by declared status.  With `ACTIVE` it appends exactly
one activate call to the log and its result is the answer of that call wrapped
as an activation failure (so an error iff the call failed); with `INACTIVE` the
same holds with one deactivate call and a deactivation failure; with any other
value it returns no error and leaves the state, log included, as it was.  The
resource record, identifier included, is never changed. -/
theorem policyActivate_by_status (env : Env) (s : State) :
    (s.d.status = statusActive →
      (policyActivate env s).2.log = s.log ++ [Call.ActivatePolicy s.d.id] ∧
      (policyActivate env s).1
        = (env.ActivatePolicy s.log s.d.id).map (Error.wrapped "activation has failed") ∧
      ((policyActivate env s).1 ≠ none ↔ env.ActivatePolicy s.log s.d.id ≠ none)) ∧
    (s.d.status = statusInactive →
      (policyActivate env s).2.log = s.log ++ [Call.DeactivatePolicy s.d.id] ∧
      (policyActivate env s).1
        = (env.DeactivatePolicy s.log s.d.id).map (Error.wrapped "deactivation has failed") ∧
      ((policyActivate env s).1 ≠ none ↔ env.DeactivatePolicy s.log s.d.id ≠ none)) ∧
    (s.d.status ≠ statusActive → s.d.status ≠ statusInactive →
      policyActivate env s = (none, s)) ∧
    (policyActivate env s).2.d = s.d ∧ (policyActivate env s).2.d.id = s.d.id := by
  refine ⟨?_, ?_, ?_, ?_⟩
  · intro h
    rw [policyActivate_of_active env s h]
    refine ⟨rfl, rfl, ?_⟩
    cases env.ActivatePolicy s.log s.d.id <;> simp
  · intro h
    rw [policyActivate_of_inactive env s h]
    refine ⟨rfl, rfl, ?_⟩
    cases env.DeactivatePolicy s.log s.d.id <;> simp
  · exact policyActivate_of_other env s
  · by_cases ha : s.d.status = statusActive
    · rw [policyActivate_of_active env s ha]
      exact ⟨rfl, rfl⟩
    · by_cases hi : s.d.status = statusInactive
      · rw [policyActivate_of_inactive env s hi]
        exact ⟨rfl, rfl⟩
      · rw [policyActivate_of_other env s ha hi]
        exact ⟨rfl, rfl⟩

/-- Witness of C6: status `ACTIVE` on the record bound to `p-1`. -/
theorem policyActivate_by_status_witness :
    (policyActivate env2 ⟨mfaStrict "p-1", []⟩).2.log = [Call.ActivatePolicy "p-1"] ∧
    (policyActivate env2 ⟨mfaStrict "p-1", []⟩).1 = none :=
  have h := (policyActivate_by_status env2 ⟨mfaStrict "p-1", []⟩).1 (by decide)
  ⟨h.1, h.2.1⟩

/-- C4: `getPolicy` by the answer of the remote get.  On a not-found answer
(status 404, no policy) it returns no policy and no error and the identifier is
empty afterwards; on a failure with any other status it returns that error and
the resource record is unchanged; on a success with a policy it returns that
policy and no error and the resource record is unchanged. -/
theorem getPolicy_by_answer (env : Env) (s : State) :
    (∀ r, (env.GetPolicy s.log s.d.id).resp = some r → r.StatusCode = statusNotFound →
      (env.GetPolicy s.log s.d.id).policy = none →
      (getPolicy env s).1 = (none, none) ∧ (getPolicy env s).2.d.id = "") ∧
    (∀ e, (env.GetPolicy s.log s.d.id).err = some e →
      (∀ r, (env.GetPolicy s.log s.d.id).resp = some r → r.StatusCode ≠ statusNotFound) →
      (getPolicy env s).1 = (none, some e) ∧ (getPolicy env s).2.d = s.d ∧
      (getPolicy env s).2.d.id = s.d.id) ∧
    (∀ policy, (env.GetPolicy s.log s.d.id).policy = some policy →
      (env.GetPolicy s.log s.d.id).err = none →
      (getPolicy env s).1 = (some policy, none) ∧ (getPolicy env s).2.d = s.d ∧
      (getPolicy env s).2.d.id = s.d.id) := by
  refine ⟨?_, ?_, ?_⟩
  · intro r hr h404 hp
    simp [getPolicy, suppressErrorOn404, hr, h404, hp, ResourceData.SetId]
  · intro e he hother
    cases hr : (env.GetPolicy s.log s.d.id).resp with
    | none => simp [getPolicy, suppressErrorOn404, hr, he]
    | some r =>
      have hn := hother r hr
      simp [getPolicy, suppressErrorOn404, hr, he, hn]
  · intro policy hp he
    cases hr : (env.GetPolicy s.log s.d.id).resp with
    | none => simp [getPolicy, suppressErrorOn404, hr, he, hp]
    | some r => simp [getPolicy, suppressErrorOn404, hr, he, hp]

/-- Witness of C4: a not-found answer clears the identifier `p-1`, and a found
record is handed back with the identifier kept. -/
theorem getPolicy_by_answer_witness :
    ((getPolicy env2 ⟨mfaStrict "p-1", []⟩).1 = (none, none) ∧
      (getPolicy env2 ⟨mfaStrict "p-1", []⟩).2.d.id = "") ∧
    ((getPolicy envFound ⟨mfaStrict "p-1", []⟩).1 = (some bareRecord, none) ∧
      (getPolicy envFound ⟨mfaStrict "p-1", []⟩).2.d.id = "p-1") :=
  have h1 := (getPolicy_by_answer env2 ⟨mfaStrict "p-1", []⟩).1
    { StatusCode := 404 } rfl rfl rfl
  have h2 := (getPolicy_by_answer envFound ⟨mfaStrict "p-1", []⟩).2.2 bareRecord rfl rfl
  ⟨h1, h2.1, h2.2.2⟩

/-- Counterexample to C7 as stated: the remote record carries a group-inclusion
condition with no group identifier, the local value is the set of `g1` and
`g2`, and after the call the local value is the empty set. -/
theorem sync_empty_condition_overwrites :
    includedGroupIds emptyIncludeRecord = [] ∧
    (mfaStrict "p-1").groups_included = {"g1", "g2"} ∧
    (syncPolicyFromUpstream (mfaStrict "p-1") emptyIncludeRecord).2.groups_included = ∅ ∧
    (syncPolicyFromUpstream (mfaStrict "p-1") emptyIncludeRecord).2.groups_included
      ≠ (mfaStrict "p-1").groups_included := by
  refine ⟨rfl, rfl, rfl, ?_⟩
  decide

/-- C7, amended: if the `Include` slice of the remote record is absent (the
conditions, the people condition, the group condition or the slice itself is
nil), `groups_included` after the call is its value before; if the slice is
present, with or without elements, `groups_included` after the call has exactly
the elements of the slice. -/
theorem sync_groups_included (d : ResourceData) (policy : SdkPolicy) :
    (includeSlice policy = none →
      (syncPolicyFromUpstream d policy).2.groups_included = d.groups_included) ∧
    (∀ ids, includeSlice policy = some ids →
      ∀ g, g ∈ (syncPolicyFromUpstream d policy).2.groups_included ↔ g ∈ ids) := by
  obtain ⟨id, name, descr, status, ty, prio, conditions⟩ := policy
  cases conditions with
  | none => cases prio <;> simp [includeSlice, syncPolicyFromUpstream]
  | some c =>
    obtain ⟨people⟩ := c
    cases people with
    | none => cases prio <;> simp [includeSlice, syncPolicyFromUpstream]
    | some pc =>
      obtain ⟨groups⟩ := pc
      cases groups with
      | none => cases prio <;> simp [includeSlice, syncPolicyFromUpstream]
      | some gc =>
        obtain ⟨inc⟩ := gc
        cases inc with
        | none => cases prio <;> simp [includeSlice, syncPolicyFromUpstream]
        | some ids =>
          cases prio <;>
            simp [includeSlice, syncPolicyFromUpstream, setNonPrimitives, convertStringSliceToSet]

/-- Witness of C7, amended: a record without conditions leaves the local groups
as they were, and the declared template overwrites them with `g1` and `g2`. -/
theorem sync_groups_included_witness :
    (syncPolicyFromUpstream (mfaStrict "p-1") bareRecord).2.groups_included = {"g1", "g2"} ∧
    ("g2" ∈ (syncPolicyFromUpstream defaultRecord mfaStrictTemplate).2.groups_included
      ↔ "g2" ∈ ["g1", "g2"]) :=
  ⟨(sync_groups_included (mfaStrict "p-1") bareRecord).1 rfl,
    (sync_groups_included defaultRecord mfaStrictTemplate).2 ["g1", "g2"] rfl "g2"⟩

/-- The inner loop of `findPolicyByNameAndType` is the first match of the page. -/
theorem firstNamed_eq_find (name : String) (ps : List Policy) :
    firstNamed name ps = ps.find? (fun x => decide (x.Name = name)) := by
  induction ps with
  | nil => rfl
  | cons x xs ih =>
    by_cases h : x.Name = name
    · simp [firstNamed, List.find?, h]
    · simp [firstNamed, List.find?, h, ih]

/-- The page loop, when every further page fetch succeeds: the result is the
first match over the current page followed by the further pages, and without a
match every further page is fetched. -/
theorem findPolicyLoop_all_ok (name policyType : String) (more : List (List Policy)) :
    ∀ (ps : List Policy) (log : List Call),
      findPolicyLoop name policyType ps (more.map Except.ok) log =
        match (ps :: more).flatten.find? (fun x => decide (x.Name = name)) with
        | some policy =>
          (Except.ok policy, (findPolicyLoop name policyType ps (more.map Except.ok) log).2)
        | none =>
          (Except.error (Error.message ("no policies retrieved for policy type '" ++ policyType
            ++ "' and name '" ++ name ++ "'")), log ++ List.replicate more.length Call.Next) := by
  induction more with
  | nil =>
    intro ps log
    cases h : firstNamed name ps with
    | none =>
      have h1 := h
      rw [firstNamed_eq_find] at h1
      simp [findPolicyLoop, h, h1]
    | some policy =>
      have h1 := h
      rw [firstNamed_eq_find] at h1
      simp [findPolicyLoop, h, h1]
  | cons page more ih =>
    intro ps log
    cases h : firstNamed name ps with
    | none =>
      have h1 := h
      rw [firstNamed_eq_find] at h1
      have hj : (ps :: page :: more).flatten.find? (fun x => decide (x.Name = name))
          = (page :: more).flatten.find? (fun x => decide (x.Name = name)) := by
        rw [List.flatten_cons, List.find?_append, h1]
        simp
      have hstep : findPolicyLoop name policyType ps ((page :: more).map Except.ok) log
          = findPolicyLoop name policyType page (more.map Except.ok) (log ++ [Call.Next]) := by
        simp [findPolicyLoop, h]
      rw [hstep, hj, ih page (log ++ [Call.Next])]
      cases (page :: more).flatten.find? (fun x => decide (x.Name = name)) with
      | none => simp [List.replicate_succ]
      | some policy => rfl
    | some policy =>
      have h1 := h
      rw [firstNamed_eq_find] at h1
      have hj : (ps :: page :: more).flatten.find? (fun x => decide (x.Name = name))
          = some policy := by
        rw [List.flatten_cons, List.find?_append, h1]
        simp
      rw [hj]
      simp [findPolicyLoop, h]

/-- C8: over a listing of `more.length + 1` pages whose fetches all succeed, if
some policy on some page has the name, `findPolicyByNameAndType` returns the
first such policy of the pages taken in order; if no page holds a policy with
the name, it issues the listing call and one `Next` call for each further page
and returns the lookup error, without a policy. -/
theorem findPolicyByNameAndType_first_match (env : Env) (name policyType : String)
    (log : List Call) (page : List Policy) (more : List (List Policy))
    (hf : (env.ListPolicies log policyType).first = Except.ok page)
    (hr : (env.ListPolicies log policyType).rest = more.map Except.ok) :
    ((∃ x ∈ (page :: more).flatten, x.Name = name) →
      ∃ policy, (page :: more).flatten.find? (fun x => decide (x.Name = name)) = some policy ∧
        (findPolicyByNameAndType env name policyType log).1 = Except.ok policy) ∧
    ((∀ x ∈ (page :: more).flatten, x.Name ≠ name) →
      findPolicyByNameAndType env name policyType log
        = (Except.error (Error.message ("no policies retrieved for policy type '" ++ policyType
            ++ "' and name '" ++ name ++ "'")),
          log ++ [Call.ListPolicies policyType] ++ List.replicate more.length Call.Next)) := by
  have hfind : findPolicyByNameAndType env name policyType log
      = findPolicyLoop name policyType page (more.map Except.ok)
          (log ++ [Call.ListPolicies policyType]) := by
    simp only [findPolicyByNameAndType, hf, hr]
  have hloop := findPolicyLoop_all_ok name policyType more page
    (log ++ [Call.ListPolicies policyType])
  constructor
  · rintro ⟨x, hx, hname⟩
    cases hq : (page :: more).flatten.find? (fun x => decide (x.Name = name)) with
    | none =>
      have hno := List.find?_eq_none.mp hq x hx
      simp [hname] at hno
    | some policy =>
      refine ⟨policy, rfl, ?_⟩
      rw [hq] at hloop
      rw [hfind, hloop]
  · intro hall
    have hq : (page :: more).flatten.find? (fun x => decide (x.Name = name)) = none := by
      rw [List.find?_eq_none]
      intro x hx
      simp [hall x hx]
    rw [hq] at hloop
    rw [hfind, hloop]

/-- Witness of C8: the name of the built-in policy is found on the second page. -/
theorem findPolicyByNameAndType_first_match_witness :
    (∃ x ∈ ([customPolicy] :: [[systemPolicy]]).flatten, x.Name = "Default Policy") ∧
    ∃ policy, ([customPolicy] :: [[systemPolicy]]).flatten.find?
        (fun x => decide (x.Name = "Default Policy")) = some policy ∧
      (findPolicyByNameAndType envPaged "Default Policy" "PASSWORD" []).1 = Except.ok policy :=
  have hex : ∃ x ∈ ([customPolicy] :: [[systemPolicy]]).flatten, x.Name = "Default Policy" :=
    ⟨systemPolicy, by decide, rfl⟩
  ⟨hex, (findPolicyByNameAndType_first_match envPaged "Default Policy" "PASSWORD" []
    [customPolicy] [[systemPolicy]] rfl rfl).1 hex⟩

/-- C9, the code at the failing input: the listing has two pages and the policy
flagged as system is on the second one.  `findSystemPolicyByType` issues the
listing call alone and reports that no system policy exists, while the lookup by
name over the same listing reaches the second page and returns that policy. -/
theorem findSystemPolicyByType_misses_later_page :
    systemPolicy ∈ ([customPolicy] :: [[systemPolicy]]).flatten ∧
    systemPolicy.System = some true ∧
    findSystemPolicyByType envPaged "PASSWORD" []
      = (Outcome.error (Error.message "default system \"PASSWORD\" policy not found"),
          [Call.ListPolicies "PASSWORD"]) ∧
    findPolicyByNameAndType envPaged "Default Policy" "PASSWORD" []
      = (Except.ok systemPolicy, [Call.ListPolicies "PASSWORD", Call.Next]) := by
  refine ⟨by decide, rfl, ?_, ?_⟩
  · decide
  · rfl

end Okta
